import Mathlib

/-!
Verification of the CP02 BLE controller and gateway backend.

The definitions below are shallow embeddings of the Python sources:
byte strings become `List Nat` (each element a byte value), Python dicts
become association lists updated in place, `datetime` instants become `Int`
timestamps, and floating point telemetry values become `ℚ`.
-/

set_option maxHeartbeats 1000000

namespace CP02

/-! Frame codec, from protocol.py. -/

/-- Signed reading of a byte, as Python struct.unpack with the b format. -/
def toI8 (b : Nat) : Int :=
  if b < 128 then (b : Int) else (b : Int) - 256

/-- Checksum from protocol.py calc_checksum: the sum of all header bytes
but the last one, masked to the low byte. -/
def calc_checksum (header : List Nat) : Nat :=
  header.dropLast.sum % 256

/-- Parsed frame, from the BLEResponse dataclass in protocol.py. -/
structure BLEResponse where
  version : Nat
  msg_id : Nat
  service : Int
  sequence : Nat
  flags : Nat
  size : Nat
  checksum : Nat
  payload : List Nat
  raw : List Nat
  success : Bool := true
  error : Option String := none
deriving DecidableEq, Repr

/-- Frame encoder, from protocol.py build_message: the size field is always
laid out big-endian (struct.pack with the greater-than I format, keeping the
low three bytes), the checksum is computed over the header with a zero
placeholder in the last slot and then written into that slot. -/
def build_message (version msg_id service sequence flags : Nat)
    (payload : List Nat) : List Nat :=
  let payload_size := payload.length
  let s0 := payload_size / 65536 % 256
  let s1 := payload_size / 256 % 256
  let s2 := payload_size % 256
  let header : List Nat := [version, msg_id, service % 256, sequence, flags, s0, s1, s2, 0]
  let checksum := calc_checksum header
  header.dropLast ++ [checksum] ++ payload

/-- Frame decoder, from protocol.py parse_response: fails only when fewer
than 9 bytes are given; the size field is read big-endian for version 0 and
little-endian otherwise; the payload is the slice from byte 9 of length
size, truncated to the available bytes; no checksum check is performed. -/
def parse_response (data : List Nat) : BLEResponse :=
  if data.length < 9 then
    { version := 0, msg_id := 0, service := 0, sequence := 0, flags := 0,
      size := 0, checksum := 0, payload := [], raw := data,
      success := false, error := some "Response too short" }
  else
    let version := data.getD 0 0
    let msg_id := data.getD 1 0
    let service := toI8 (data.getD 2 0)
    let sequence := data.getD 3 0
    let flags := data.getD 4 0
    let size :=
      if version = 0 then data.getD 5 0 * 65536 + data.getD 6 0 * 256 + data.getD 7 0
      else data.getD 5 0 + data.getD 6 0 * 256 + data.getD 7 0 * 65536
    let checksum := data.getD 8 0
    let payload := if 9 < data.length then (data.drop 9).take size else []
    { version := version, msg_id := msg_id, service := service, sequence := sequence,
      flags := flags, size := size, checksum := checksum, payload := payload,
      raw := data, success := true, error := none }

/-- Normal form of the encoder output as a plain cons list. -/
theorem build_message_eq (version msg_id service sequence flags : Nat)
    (payload : List Nat) :
    build_message version msg_id service sequence flags payload =
      version :: msg_id :: service % 256 :: sequence :: flags ::
        payload.length / 65536 % 256 :: payload.length / 256 % 256 ::
        payload.length % 256 ::
        ((version + (msg_id + (service % 256 + (sequence + (flags +
          (payload.length / 65536 % 256 + (payload.length / 256 % 256 +
          (payload.length % 256 + 0)))))))) % 256) :: payload := by
  rfl

/-- C1 counterexample: the encoder lays out the size big-endian for every
version, while the decoder reads it little-endian for version 1, so a
one-byte payload at version 1 decodes with size 65536 instead of 1. -/
theorem c1_roundtrip_counterexample :
    (parse_response (build_message 1 2 3 4 5 [47])).size = 65536
    ∧ (parse_response (build_message 1 2 3 4 5 [47])).size ≠ 1 := by
  constructor <;> decide

/-- C1 (amended): for version 0 the codec round trip holds — decoding the
bytes produced by build_message recovers the msg_id, the service read as a
signed byte of its low byte, the sequence, the flags, the payload length as
the size, and the payload, whenever the header inputs are byte values and
the payload is shorter than 2^24. -/
theorem c1_roundtrip_v0 (msg_id service sequence flags : Nat) (payload : List Nat)
    (hm : msg_id < 256) (hq : sequence < 256) (hf : flags < 256)
    (hp : payload.length < 16777216) :
    (parse_response (build_message 0 msg_id service sequence flags payload)).version = 0
    ∧ (parse_response (build_message 0 msg_id service sequence flags payload)).msg_id = msg_id
    ∧ (parse_response (build_message 0 msg_id service sequence flags payload)).service
        = toI8 (service % 256)
    ∧ (parse_response (build_message 0 msg_id service sequence flags payload)).sequence = sequence
    ∧ (parse_response (build_message 0 msg_id service sequence flags payload)).flags = flags
    ∧ (parse_response (build_message 0 msg_id service sequence flags payload)).size
        = payload.length
    ∧ (parse_response (build_message 0 msg_id service sequence flags payload)).payload
        = payload := by
  rw [build_message_eq]
  have hlen : (0 :: msg_id :: service % 256 :: sequence :: flags ::
      payload.length / 65536 % 256 :: payload.length / 256 % 256 ::
      payload.length % 256 ::
      ((0 + (msg_id + (service % 256 + (sequence + (flags +
        (payload.length / 65536 % 256 + (payload.length / 256 % 256 +
        (payload.length % 256 + 0)))))))) % 256) :: payload).length
      = 9 + payload.length := by
    simp [List.length_cons]
    omega
  have hsize : payload.length / 65536 % 256 * 65536 + payload.length / 256 % 256 * 256
      + payload.length % 256 = payload.length := by
    omega
  unfold parse_response
  rw [if_neg (by omega)]
  simp only [List.getD_cons_zero, List.getD_cons_succ, if_pos rfl, hlen]
  refine ⟨trivial, trivial, trivial, trivial, trivial, hsize, ?_⟩
  by_cases h9 : 9 < 9 + payload.length
  · rw [if_pos h9]
    simp only [List.drop_succ_cons, List.drop_zero, hsize]
    exact List.take_length payload
  · rw [if_neg h9]
    have : payload.length = 0 := by omega
    exact (List.length_eq_zero.mp this).symm

/-- C1 witness: the round trip evaluated at a concrete frame. -/
theorem c1_roundtrip_v0_witness :
    (parse_response (build_message 0 1 28 0 2 [47])).size = 1
    ∧ (parse_response (build_message 0 1 28 0 2 [47])).payload = [47] :=
  ⟨(c1_roundtrip_v0 1 28 0 2 [47] (by decide) (by decide) (by decide)
      (by decide)).2.2.2.2.2.1,
   (c1_roundtrip_v0 1 28 0 2 [47] (by decide) (by decide) (by decide)
      (by decide)).2.2.2.2.2.2⟩

/-- C2 counterexample: flipping the lowest bit of byte 0 of a valid frame
leaves the stored checksum stale, yet parse_response still succeeds with no
error — decode performs no checksum validation at all. -/
theorem c2_checksum_counterexample :
    build_message 0 1 28 0 2 [47] = [0, 1, 28, 0, 2, 0, 0, 1, 32, 47]
    ∧ (parse_response [1, 1, 28, 0, 2, 0, 0, 1, 32, 47]).success = true
    ∧ (parse_response [1, 1, 28, 0, 2, 0, 0, 1, 32, 47]).error = none := by
  refine ⟨by decide, by decide, by decide⟩

/-- C2 (amended): parse_response reports a failure exactly when the input
is shorter than 9 bytes; inputs of 9 bytes or more always parse with
success and no error, regardless of the checksum byte or of whether the
remaining bytes cover the size declared in the header. -/
theorem c2_parse_error_iff_too_short (data : List Nat) :
    ((parse_response data).success = false ↔ data.length < 9)
    ∧ ((parse_response data).error = some "Response too short" ↔ data.length < 9) := by
  unfold parse_response
  by_cases h : data.length < 9
  · rw [if_pos h]
    simp [h]
  · rw [if_neg h]
    simp [h]

/-- C2 witness: the error criterion evaluated at concrete inputs. -/
theorem c2_parse_error_iff_too_short_witness :
    ((parse_response [0, 1, 2]).success = false ↔ (3 : Nat) < 9)
    ∧ ((parse_response [1, 1, 28, 0, 2, 0, 0, 1, 32, 47]).success = false
        ↔ (10 : Nat) < 9) :=
  ⟨(c2_parse_error_iff_too_short [0, 1, 2]).1,
   (c2_parse_error_iff_too_short [1, 1, 28, 0, 2, 0, 0, 1, 32, 47]).1⟩

/-! Compatibility settings codec, from protocol.py. -/

/-- Port protocol compatibility settings, from the CompatibilitySettings
dataclass in protocol.py; every flag defaults to false. -/
structure CompatibilitySettings where
  isTfcpEnabled : Bool := false
  isFcpEnabled : Bool := false
  isUfcsEnabled : Bool := false
  isHvScpEnabled : Bool := false
  isLvScpEnabled : Bool := false
deriving DecidableEq, Repr

/-- Encoder from protocol.py encode_compatibility_settings: one byte whose
five low bits are the five flags. -/
def encode_compatibility_settings (settings : CompatibilitySettings) : List Nat :=
  let value : Nat :=
    (if settings.isTfcpEnabled then 1 <<< 0 else 0) |||
    (if settings.isFcpEnabled then 1 <<< 1 else 0) |||
    (if settings.isUfcsEnabled then 1 <<< 2 else 0) |||
    (if settings.isHvScpEnabled then 1 <<< 3 else 0) |||
    (if settings.isLvScpEnabled then 1 <<< 4 else 0)
  [value]

/-- Decoder from protocol.py decode_compatibility_settings: an input with
no bytes yields the default record, otherwise the five low bits of the
first byte become the flags. -/
def decode_compatibility_settings (data : List Nat) : CompatibilitySettings :=
  if data.length < 1 then {}
  else
    let value := data.getD 0 0
    { isTfcpEnabled := value &&& (1 <<< 0) != 0
      isFcpEnabled := value &&& (1 <<< 1) != 0
      isUfcsEnabled := value &&& (1 <<< 2) != 0
      isHvScpEnabled := value &&& (1 <<< 3) != 0
      isLvScpEnabled := value &&& (1 <<< 4) != 0 }

/-- C10: decoding the byte produced by encoding returns the same record,
the encoded byte keeps its upper three bits clear, and decoding an empty
input returns the all-false record rather than an error. -/
theorem c10_compatibility_roundtrip (s : CompatibilitySettings) :
    decode_compatibility_settings (encode_compatibility_settings s) = s
    ∧ (encode_compatibility_settings s).getD 0 0 < 32
    ∧ decode_compatibility_settings [] = ({} : CompatibilitySettings) := by
  obtain ⟨a, b, c, d, e⟩ := s
  cases a <;> cases b <;> cases c <;> cases d <;> cases e <;> exact ⟨by decide, by decide, by decide⟩

/-- C10 witness: the round trip evaluated at a concrete record. -/
theorem c10_compatibility_roundtrip_witness :
    decode_compatibility_settings (encode_compatibility_settings
      { isTfcpEnabled := true, isLvScpEnabled := true })
      = { isTfcpEnabled := true, isLvScpEnabled := true } :=
  (c10_compatibility_roundtrip { isTfcpEnabled := true, isLvScpEnabled := true }).1

/-! Session notification pairing, from ble_manager.py. -/

/-- Session state of BLEManager: the message id counter, the asyncio event
armed by the notification callback, and the response it last stored. -/
structure SessionState where
  msg_id : Nat := 0
  response_event : Bool := false
  last_response : Option BLEResponse := none
deriving DecidableEq, Repr

/-- Notification callback from BLEManager, which parses the incoming bytes,
stores the result and sets the event — with no filtering on the service
sign or the message id. -/
def notification_handler (st : SessionState) (data : List Nat) : SessionState :=
  { st with last_response := some (parse_response data), response_event := true }

/-- Waiting on the response event: incoming notifications are handled in
order until the event is observed set; exhausting them without the event
models the asyncio timeout and returns nothing. -/
def await_response : SessionState → List (List Nat) → Option BLEResponse
  | _, [] => none
  | st, data :: rest =>
    let st1 := notification_handler st data
    if st1.response_event then st1.last_response else await_response st1 rest

/-- BLEManager.send_command: advance the message id modulo 256, clear the
event and the stored response, write the frame, then wait for the event up
to the timeout; the notifications argument lists the frames delivered to
the callback before the timeout expires. -/
def send_command_session (st : SessionState) (service : Nat) (payload : List Nat)
    (notifications : List (List Nat)) : Option BLEResponse × SessionState :=
  let st1 : SessionState :=
    { st with
      msg_id := (st.msg_id + 1) % 256
      response_event := false
      last_response := none }
  (await_response st1 notifications, st1)

/-- C3 counterexample: the allocated message id is 1, yet a notification
whose parsed frame has service 28 (non-negative, so not a response) and
msg_id 99 still completes the send and is returned instead of being
dropped. -/
theorem c3_pairing_counterexample :
    ((send_command_session {} 28 [66] [build_message 0 99 28 0 2 [47]]).2.msg_id = 1)
    ∧ ((send_command_session {} 28 [66] [build_message 0 99 28 0 2 [47]]).1.map
        BLEResponse.service = some 28)
    ∧ ((send_command_session {} 28 [66] [build_message 0 99 28 0 2 [47]]).1.map
        BLEResponse.msg_id = some 99)
    ∧ (send_command_session {} 28 [66] [build_message 0 99 28 0 2 [47]]).1 ≠ none := by
  refine ⟨by decide, by decide, by decide, by decide⟩

/-- C3 (amended): send_command returns the parse of the first notification
delivered before the timeout, whatever its service sign or message id — no
notification is dropped — and returns nothing only when no notification
arrives within the timeout; the allocated message id advances modulo
256. -/
theorem c3_send_returns_first_notification (st : SessionState) (service : Nat)
    (payload : List Nat) (notifications : List (List Nat)) :
    (send_command_session st service payload notifications).1
      = notifications.head?.map parse_response
    ∧ (send_command_session st service payload notifications).2.msg_id
      = (st.msg_id + 1) % 256 := by
  cases notifications <;>
    simp [send_command_session, await_response, notification_handler]

/-- C3 witness: the send outcome evaluated on a concrete notification list
and on an empty one. -/
theorem c3_send_returns_first_notification_witness :
    (send_command_session {} 28 [66] [[0, 1, 156, 0, 2, 0, 0, 1, 159, 47]]).1
      = some (parse_response [0, 1, 156, 0, 2, 0, 0, 1, 159, 47])
    ∧ (send_command_session {} 28 [66] []).1 = none :=
  ⟨(c3_send_returns_first_notification {} 28 [66]
      [[0, 1, 156, 0, 2, 0, 0, 1, 159, 47]]).1,
   (c3_send_returns_first_notification {} 28 [66] []).1⟩

/-! Association list helpers, modelling Python dict assignment and pop. -/

/-- Dict assignment: replace the entry for the key in place, or append a
new one. -/
def upsertA {α β : Type} [DecidableEq α] : List (α × β) → α → β → List (α × β)
  | [], k, v => [(k, v)]
  | kv :: rest, k, v => if kv.1 = k then (k, v) :: rest else kv :: upsertA rest k v

/-- Dict lookup on an association list. -/
def lookupA {α β : Type} [DecidableEq α] : List (α × β) → α → Option β
  | [], _ => none
  | kv :: rest, k => if kv.1 = k then some kv.2 else lookupA rest k

/-- Dict pop: drop the first entry carrying the key. -/
def removeKey {α β : Type} [DecidableEq α] : List (α × β) → α → List (α × β)
  | [], _ => []
  | kv :: rest, k => if kv.1 = k then rest else kv :: removeKey rest k

theorem lookupA_upsertA {α β : Type} [DecidableEq α] (m : List (α × β)) (k j : α) (v : β) :
    lookupA (upsertA m k v) j = if k = j then some v else lookupA m j := by
  induction m with
  | nil => simp only [upsertA, lookupA]
  | cons kv rest ih =>
    simp only [upsertA]
    by_cases h1 : kv.1 = k
    · rw [if_pos h1]
      by_cases h2 : k = j
      · simp only [lookupA, if_pos h2]
      · have h3 : ¬kv.1 = j := fun he => h2 (h1.symm.trans he)
        simp only [lookupA, if_neg h2, if_neg h3]
    · rw [if_neg h1]
      by_cases h2 : kv.1 = j
      · have h3 : ¬k = j := fun he => h1 (h2.trans he.symm)
        simp only [lookupA, if_pos h2, if_neg h3]
      · simp only [lookupA, if_neg h2, ih]

theorem lookupA_removeKey_ne {α β : Type} [DecidableEq α] (m : List (α × β)) (k j : α)
    (h : j ≠ k) : lookupA (removeKey m k) j = lookupA m j := by
  induction m with
  | nil => rfl
  | cons kv rest ih =>
    simp only [removeKey]
    by_cases h1 : kv.1 = k
    · rw [if_pos h1]
      have h3 : ¬kv.1 = j := fun he => h (he.symm.trans h1)
      simp only [lookupA, if_neg h3]
    · rw [if_neg h1]
      simp only [lookupA, ih]

/-! Token manager and token enumeration, from ble_manager.py. -/

/-- TokenManager state: the cached token, the time of the last refresh, and
the single boolean guard against concurrent acquisition. -/
structure TokenManagerState where
  token : Option Nat := none
  last_refresh : Option Int := none
  acquiring : Bool := false
deriving DecidableEq, Repr

/-- TokenManager.set_token: adopt the token, stamp the refresh time, clear
the guard. -/
def set_token (tm : TokenManagerState) (t : Nat) (now : Int) : TokenManagerState :=
  { tm with token := some t, last_refresh := some now, acquiring := false }

/-- BLEManager state relevant to token discovery: the token manager, the
token storage file content (address to token byte and last_used instant),
and the connected device's address. -/
structure BLEManagerState where
  tm : TokenManagerState
  storage : List (String × (Nat × Int))
  deviceAddress : String
deriving DecidableEq, Repr

/-- Success test applied to each probe in BLEManager.bruteforce_token: a
response arrived and its parsed frame has a negative service and a positive
size. -/
def probe_success : Option BLEResponse → Bool
  | some resp => decide (resp.service < 0) && decide (0 < resp.size)
  | none => false

/-- BLEManager.bruteforce_token with save_to_storage: when the guard is set
the call returns the current token untouched; otherwise tokens 0 to 255 are
probed in increasing order against the device (the oracle gives the
response each probe would receive), the first success is adopted, persisted
under the device address and returned, and if every probe fails the result
is nothing and the state is unchanged apart from the cleared guard. -/
def bruteforce_token (st : BLEManagerState) (oracle : Nat → Option BLEResponse)
    (save_to_storage : Bool) (now : Int) : Option Nat × BLEManagerState :=
  if st.tm.acquiring then (st.tm.token, st)
  else
    match (List.range 256).find? (fun t => probe_success (oracle t)) with
    | some t =>
        (some t,
          { st with
            tm := set_token st.tm t now
            storage := if save_to_storage then upsertA st.storage st.deviceAddress (t, now)
                       else st.storage })
    | none => (none, { st with tm := { st.tm with acquiring := false } })

theorem find?_range_eq_some {p : Nat → Bool} {t : Nat} (n : Nat) (ht : t < n)
    (hp : p t = true) (hmin : ∀ s, s < t → p s = false) :
    (List.range n).find? p = some t := by
  induction n with
  | zero => omega
  | succ n ih =>
    rw [List.range_succ, List.find?_append]
    by_cases h : t < n
    · rw [ih h]
      rfl
    · have htn : t = n := by omega
      have hnone : (List.range n).find? p = none := by
        rw [List.find?_eq_none]
        intro x hx
        rw [List.mem_range] at hx
        simp [hmin x (by omega)]
      rw [hnone, htn]
      simp [List.find?, htn ▸ hp]

/-- C4: with the guard clear, token discovery returns the least t below 256
whose probe draws a framed response with negative service and positive
size, adopts it and persists it under the device address; when every probe
fails it returns nothing and leaves the storage alone; with the guard set
it performs no probes and returns the current token with the state
untouched. -/
theorem c4_bruteforce_token (st : BLEManagerState) (oracle : Nat → Option BLEResponse)
    (now : Int) (t : Nat) :
    (st.tm.acquiring = true → bruteforce_token st oracle true now = (st.tm.token, st))
    ∧ (st.tm.acquiring = false → t < 256 → probe_success (oracle t) = true →
        (∀ s, s < t → probe_success (oracle s) = false) →
        (bruteforce_token st oracle true now).1 = some t
        ∧ (bruteforce_token st oracle true now).2.tm.token = some t
        ∧ lookupA (bruteforce_token st oracle true now).2.storage st.deviceAddress
            = some (t, now))
    ∧ (st.tm.acquiring = false → (∀ s, s < 256 → probe_success (oracle s) = false) →
        (bruteforce_token st oracle true now).1 = none
        ∧ (bruteforce_token st oracle true now).2.storage = st.storage
        ∧ (bruteforce_token st oracle true now).2.tm.token = st.tm.token) := by
  refine ⟨fun hg => by simp [bruteforce_token, hg], fun hg ht hp hmin => ?_, fun hg hall => ?_⟩
  · have hfind := find?_range_eq_some (p := fun t => probe_success (oracle t)) 256 ht hp hmin
    simp [bruteforce_token, hg, hfind, set_token, lookupA_upsertA]
  · have hfind : (List.range 256).find? (fun t => probe_success (oracle t)) = none := by
      rw [List.find?_eq_none]
      intro x hx
      rw [List.mem_range] at hx
      simp [hall x hx]
    simp [bruteforce_token, hg, hfind]

/-- C4 witness: discovery evaluated against a concrete device accepting
token 5 only. -/
theorem c4_bruteforce_token_witness :
    (bruteforce_token ⟨{}, [], "aa:bb"⟩
      (fun t => if t = 5 then some (parse_response (build_message 0 1 156 0 2 [47])) else none)
      true 0).1 = some 5 :=
  ((c4_bruteforce_token ⟨{}, [], "aa:bb"⟩
      (fun t => if t = 5 then some (parse_response (build_message 0 1 156 0 2 [47])) else none)
      0 5).2.1 rfl (by decide) (by decide)
      (fun s hs => by interval_cases s <;> decide)).1

/-! PD status parser, from protocol.py parse_port_pd_status_response. -/

/-- Banker's rounding to an integer, the semantics of Python round on an
exact value. -/
def roundHalfEven (q : ℚ) : Int :=
  if q - ⌊q⌋ < 1 / 2 then ⌊q⌋
  else if 1 / 2 < q - ⌊q⌋ then ⌊q⌋ + 1
  else if ⌊q⌋ % 2 = 0 then ⌊q⌋ else ⌊q⌋ + 1

/-- Python round(x, 2) on an exact value. -/
def pyRound2 (q : ℚ) : ℚ := (roundHalfEven (q * 100) : ℚ) / 100

/-- Safe byte read of parse_port_pd_status_response: the byte at the
offset, or zero past the end. -/
def get_byte (payload : List Nat) (offset : Nat) : Nat := payload.getD offset 0

/-- Safe little-endian word read of parse_port_pd_status_response: the two
bytes at the offset read little-endian when both lie within the payload,
zero otherwise. -/
def get_word (payload : List Nat) (offset : Nat) : Nat :=
  if offset + 1 < payload.length then
    payload.getD offset 0 + 256 * payload.getD (offset + 1) 0
  else 0

/-- Typed result of parse_port_pd_status_response, flattening the battery,
cable, operating and status sub-dictionaries of the source. -/
structure PdStatus where
  battery_vid : Nat
  battery_pid : Nat
  battery_design_capacity : ℚ
  battery_last_full_capacity : ℚ
  battery_present_capacity : ℚ
  battery_present : Bool
  battery_status_name : String
  cable_is_active : Bool
  cable_epr_mode_capable : Bool
  cable_phy_type : String
  cable_length : String
  cable_max_voltage : String
  cable_max_current : String
  cable_usb_speed : String
  cable_vid : Nat
  cable_pid : Nat
  operating_current : ℚ
  operating_voltage : ℚ
  operating_power : ℚ
  operating_pd_revision : String
  pps_charging_supported : Bool
  has_battery : Bool
  has_emarker : Bool
  status_temperature : Nat
deriving DecidableEq, Repr

/-- Field extraction of parse_port_pd_status_response, byte for byte after
the length guard. -/
def parse_port_pd_status_fields (payload : List Nat) : PdStatus :=
  let cable_flags := get_byte payload 10
  let cable_voltage_flags := get_byte payload 11
  let cable_speed_flags := get_byte payload 12
  let op_current_low := get_byte payload 34
  let op_current_high := get_byte payload 35
  let op_current := ((op_current_high &&& 0x03) <<< 8) ||| op_current_low
  let op_voltage := ((get_byte payload 38 <<< 8) ||| get_byte payload 37) &&& 0x7FFF
  let op_flags := get_byte payload 36
  { battery_vid := get_word payload 0
    battery_pid := get_word payload 2
    battery_design_capacity := (get_word payload 4 : ℚ) / 10
    battery_last_full_capacity := (get_word payload 6 : ℚ) / 10
    battery_present_capacity := (get_word payload 8 : ℚ) / 10
    battery_present := get_byte payload 10 &&& 0x02 != 0
    battery_status_name :=
      (fun x => if x = 0 then "充电中" else if x = 1 then "放电中"
        else if x = 2 then "空闲" else "未知") ((get_byte payload 10 >>> 2) &&& 0x03)
    cable_is_active := cable_flags &&& 0x04 != 0
    cable_epr_mode_capable := cable_flags &&& 0x10 != 0
    cable_phy_type := if (cable_flags >>> 5) &&& 0x01 ≠ 0 then "光缆" else "铜缆"
    cable_length :=
      (fun x => if x = 0 then "<1m" else if x = 1 then "~1m"
        else if x = 2 then "~2m" else if x = 3 then "~3m" else ">3m")
        ((cable_flags >>> 6) &&& 0x0F)
    cable_max_voltage :=
      (fun x => if x = 0 then "20V" else if x = 1 then "30V"
        else if x = 2 then "40V" else if x = 3 then "50V" else "未知")
        (cable_voltage_flags &&& 0x03)
    cable_max_current :=
      (fun x => if x = 0 then "未知" else if x = 1 then "3A"
        else if x = 2 then "5A" else "未知") ((cable_voltage_flags >>> 2) &&& 0x03)
    cable_usb_speed :=
      (fun x => if x = 0 then "USB 2.0" else if x = 1 then "USB 3.2 Gen1"
        else if x = 2 then "USB 3.2 Gen2" else if x = 3 then "USB4 Gen3" else "未知")
        (cable_speed_flags &&& 0x07)
    cable_vid := get_word payload 14
    cable_pid := get_word payload 16
    operating_current := pyRound2 ((op_current : ℚ) / 100)
    operating_voltage := pyRound2 ((op_voltage : ℚ) / 100)
    operating_power := pyRound2 ((op_current : ℚ) / 100 * ((op_voltage : ℚ) / 100))
    operating_pd_revision :=
      (fun x => if x = 0 then "1.0" else if x = 1 then "2.0"
        else if x = 3 then "3.0" else "未知") ((op_current_high >>> 2) &&& 0x03)
    pps_charging_supported := op_flags &&& 0x01 != 0
    has_battery := op_flags &&& 0x02 != 0
    has_emarker := op_flags &&& 0x08 != 0
    status_temperature := get_byte payload 33 }

/-- Parser from protocol.py parse_port_pd_status_response: payloads of
fewer than 2 bytes error out, everything else parses with zero defaults for
fields past the end. -/
def parse_port_pd_status_response (payload : List Nat) : Except String PdStatus :=
  if payload.length < 2 then .error "Response too short"
  else .ok (parse_port_pd_status_fields payload)

theorem get_byte_past (payload : List Nat) (offset : Nat) (h : payload.length ≤ offset) :
    get_byte payload offset = 0 :=
  List.getD_eq_default payload 0 h

theorem get_word_past (payload : List Nat) (offset : Nat) (h : payload.length ≤ offset + 1) :
    get_word payload offset = 0 := by
  unfold get_word
  rw [if_neg (by omega)]

theorem pyRound2_zero : pyRound2 0 = 0 := by
  unfold pyRound2 roundHalfEven
  norm_num

/-- C8: the PD status parser succeeds on every payload of at least 2 bytes
and errors on shorter ones; every field whose fixed byte offsets lie at or
past the payload length reads as its zero default; and a 12-byte payload
yields the battery VID and PID from bytes 0 to 3 while the fields at
offsets 12 and beyond are zero. -/
theorem c8_pd_status_length_tolerant (payload : List Nat) :
    (payload.length < 2 →
      parse_port_pd_status_response payload = .error "Response too short")
    ∧ (2 ≤ payload.length →
      parse_port_pd_status_response payload = .ok (parse_port_pd_status_fields payload))
    ∧ (payload.length ≤ 4 → (parse_port_pd_status_fields payload).battery_design_capacity = 0)
    ∧ (payload.length ≤ 6 →
      (parse_port_pd_status_fields payload).battery_last_full_capacity = 0)
    ∧ (payload.length ≤ 8 → (parse_port_pd_status_fields payload).battery_present_capacity = 0)
    ∧ (payload.length ≤ 10 → (parse_port_pd_status_fields payload).battery_present = false
        ∧ (parse_port_pd_status_fields payload).cable_is_active = false
        ∧ (parse_port_pd_status_fields payload).cable_epr_mode_capable = false)
    ∧ (payload.length ≤ 12 → (parse_port_pd_status_fields payload).cable_usb_speed = "USB 2.0")
    ∧ (payload.length ≤ 14 → (parse_port_pd_status_fields payload).cable_vid = 0)
    ∧ (payload.length ≤ 16 → (parse_port_pd_status_fields payload).cable_pid = 0)
    ∧ (payload.length ≤ 33 → (parse_port_pd_status_fields payload).status_temperature = 0)
    ∧ (payload.length ≤ 34 → (parse_port_pd_status_fields payload).operating_current = 0)
    ∧ (payload.length ≤ 36 →
        (parse_port_pd_status_fields payload).pps_charging_supported = false
        ∧ (parse_port_pd_status_fields payload).has_battery = false
        ∧ (parse_port_pd_status_fields payload).has_emarker = false)
    ∧ (payload.length ≤ 37 → (parse_port_pd_status_fields payload).operating_voltage = 0)
    ∧ (payload.length = 12 →
        (parse_port_pd_status_fields payload).battery_vid
          = payload.getD 0 0 + 256 * payload.getD 1 0
        ∧ (parse_port_pd_status_fields payload).battery_pid
          = payload.getD 2 0 + 256 * payload.getD 3 0
        ∧ (parse_port_pd_status_fields payload).operating_power = 0) := by
  refine ⟨?_, ?_, ?_, ?_, ?_, ?_, ?_, ?_, ?_, ?_, ?_, ?_, ?_, ?_⟩
  · intro h
    rw [parse_port_pd_status_response, if_pos h]
  · intro h
    rw [parse_port_pd_status_response, if_neg (by omega)]
  · intro h
    simp only [parse_port_pd_status_fields, get_word_past payload 4 (by omega)]
    norm_num
  · intro h
    simp only [parse_port_pd_status_fields, get_word_past payload 6 (by omega)]
    norm_num
  · intro h
    simp only [parse_port_pd_status_fields, get_word_past payload 8 (by omega)]
    norm_num
  · intro h
    simp only [parse_port_pd_status_fields, get_byte_past payload 10 (by omega)]
    refine ⟨by decide, by decide, by decide⟩
  · intro h
    simp only [parse_port_pd_status_fields, get_byte_past payload 12 (by omega)]
    decide
  · intro h
    simp only [parse_port_pd_status_fields, get_word_past payload 14 (by omega)]
  · intro h
    simp only [parse_port_pd_status_fields, get_word_past payload 16 (by omega)]
  · intro h
    simp only [parse_port_pd_status_fields, get_byte_past payload 33 (by omega)]
  · intro h
    simp only [parse_port_pd_status_fields, get_byte_past payload 34 (by omega),
      get_byte_past payload 35 (by omega)]
    rw [show ((0 &&& 3) <<< 8 ||| 0 : Nat) = 0 by decide]
    norm_num [pyRound2_zero]
  · intro h
    simp only [parse_port_pd_status_fields, get_byte_past payload 36 (by omega)]
    refine ⟨by decide, by decide, by decide⟩
  · intro h
    simp only [parse_port_pd_status_fields, get_byte_past payload 37 (by omega),
      get_byte_past payload 38 (by omega)]
    rw [show ((0 <<< 8 ||| 0) &&& 32767 : Nat) = 0 by decide]
    norm_num [pyRound2_zero]
  · intro h
    refine ⟨?_, ?_, ?_⟩
    · simp only [parse_port_pd_status_fields, get_word]
      rw [if_pos (by omega)]
    · simp only [parse_port_pd_status_fields, get_word]
      rw [if_pos (by omega)]
    · simp only [parse_port_pd_status_fields, get_byte_past payload 34 (by omega),
        get_byte_past payload 35 (by omega), get_byte_past payload 37 (by omega),
        get_byte_past payload 38 (by omega)]
      rw [show ((0 &&& 3) <<< 8 ||| 0 : Nat) = 0 by decide,
        show ((0 <<< 8 ||| 0) &&& 32767 : Nat) = 0 by decide]
      norm_num [pyRound2_zero]

/-- C8 witness: the parser evaluated on a 12-byte payload and on a 1-byte
payload. -/
theorem c8_pd_status_length_tolerant_witness :
    (parse_port_pd_status_fields [1, 2, 3, 4, 0, 0, 0, 0, 0, 0, 0, 0]).battery_vid = 513
    ∧ parse_port_pd_status_response [9] = .error "Response too short" :=
  ⟨by
    have h := ((c8_pd_status_length_tolerant
      [1, 2, 3, 4, 0, 0, 0, 0, 0, 0, 0, 0]).2.2.2.2.2.2.2.2.2.2.2.2.2 (by decide)).1
    rw [h]
    decide,
   (c8_pd_status_length_tolerant [9]).1 (by decide)⟩

/-! Gateway data store, from the backend mqtt_client.py and app.py. -/

/-- Port record kept per gateway, from the PortData dataclass. -/
structure PortData where
  port_id : Nat := 0
  state : Int := 0
  protocol : Int := 0
  voltage_mv : Int := 0
  current_ma : Int := 0
  power_w : ℚ := 0
  temperature : Int := 0
  updated_at : Int := 0
deriving DecidableEq, Repr

/-- Incoming port dictionary of an MQTT ports message; a missing key is
none and update_ports substitutes the default of the corresponding get
call. -/
structure PortUpdate where
  port_id : Option Nat := none
  state : Option Int := none
  protocol : Option Int := none
  voltage : Option Int := none
  current : Option Int := none
  power : Option ℚ := none
  temperature : Option Int := none
deriving DecidableEq, Repr

/-- Gateway record, from the GatewayInfo dataclass. -/
structure GatewayInfo where
  gateway_id : String
  device_name : Option String := none
  device_address : Option String := none
  firmware_version : Option String := none
  model : Option String := none
  serial : Option String := none
  uptime_seconds : Int := 0
  rssi : Int := 0
  connected : Bool := false
  last_heartbeat : Int
  ports : List (Nat × PortData) := []
  total_power : ℚ := 0
  active_ports : Nat := 0
deriving DecidableEq, Repr

/-- The store's get-or-create step at the top of every update method: a
missing gateway record is created with defaults, stamping the creation
instant as its heartbeat. -/
def getOrCreate (store : List (String × GatewayInfo)) (gid : String) (now : Int) :
    GatewayInfo :=
  match lookupA store gid with
  | some gw => gw
  | none => { gateway_id := gid, last_heartbeat := now }

/-- Port record built from one incoming dictionary, with the defaults of
GatewayDataStore.update_ports and the update instant. -/
def mkPortData (pd : PortUpdate) (now : Int) : PortData :=
  { port_id := pd.port_id.getD 0
    state := pd.state.getD 0
    protocol := pd.protocol.getD 0
    voltage_mv := pd.voltage.getD 0
    current_ma := pd.current.getD 0
    power_w := pd.power.getD 0
    temperature := pd.temperature.getD 0
    updated_at := now }

/-- Loop body of GatewayDataStore.update_ports: store each incoming record
under its port id and accumulate the power total and the count of ports
with positive current. -/
def updatePortsStep (now : Int) (acc : List (Nat × PortData) × ℚ × Nat)
    (pd : PortUpdate) : List (Nat × PortData) × ℚ × Nat :=
  let port := mkPortData pd now
  (upsertA acc.1 port.port_id port,
    acc.2.1 + port.power_w,
    acc.2.2 + if 0 < port.current_ma then 1 else 0)

/-- GatewayDataStore.update_ports: create the gateway if absent, fold the
incoming list into its port map and the two aggregates, round the power
total to two decimals, mark the gateway connected and emit a ports
event. -/
def update_ports (store : List (String × GatewayInfo)) (gid : String)
    (ports_data : List PortUpdate) (now : Int) :
    List (String × GatewayInfo) × (String × String) :=
  let gw := getOrCreate store gid now
  let acc := ports_data.foldl (updatePortsStep now) (gw.ports, (0 : ℚ), (0 : Nat))
  let gw' :=
    { gw with
      ports := acc.1
      total_power := pyRound2 acc.2.1
      active_ports := acc.2.2
      connected := true }
  (upsertA store gid gw', (gid, "ports"))

/-- Last-match semantics of repeated dict assignment: the incoming record
that finally lands under a key is the last one of the list carrying it. -/
def lastUpdateFor (ports_data : List PortUpdate) (k : Nat) : Option PortUpdate :=
  ports_data.foldl (fun acc pd => if pd.port_id.getD 0 = k then some pd else acc) none

/-- Keep-if-present merge of GatewayDataStore.update_device_info, where the
default of each get call is the current field value. -/
def getOrKeep {α : Type} (incoming old : Option α) : Option α :=
  match incoming with
  | some v => some v
  | none => old

/-- Incoming device_info dictionary. -/
structure DeviceInfoMsg where
  device_name : Option String := none
  device_address : Option String := none
  firmware_version : Option String := none
  model : Option String := none
  serial : Option String := none
  uptime : Option Int := none
deriving DecidableEq, Repr

/-- GatewayDataStore.update_device_info: merge the reported identity
fields, mark the gateway connected, emit a device_info event; the heartbeat
stamp is untouched. -/
def update_device_info (store : List (String × GatewayInfo)) (gid : String)
    (info : DeviceInfoMsg) (now : Int) :
    List (String × GatewayInfo) × (String × String) :=
  let gw := getOrCreate store gid now
  let gw' :=
    { gw with
      device_name := getOrKeep info.device_name gw.device_name
      device_address := getOrKeep info.device_address gw.device_address
      firmware_version := getOrKeep info.firmware_version gw.firmware_version
      model := getOrKeep info.model gw.model
      serial := getOrKeep info.serial gw.serial
      uptime_seconds := info.uptime.getD gw.uptime_seconds
      connected := true }
  (upsertA store gid gw', (gid, "device_info"))

/-- Incoming heartbeat dictionary. -/
structure HeartbeatMsg where
  uptime : Option Int := none
  rssi : Option Int := none
  connected : Option Bool := none
deriving DecidableEq, Repr

/-- GatewayDataStore.update_heartbeat: stamp the heartbeat with the current
instant, merge uptime and rssi, set connected to the reported value or true
when absent, emit a heartbeat event. -/
def update_heartbeat (store : List (String × GatewayInfo)) (gid : String)
    (hb : HeartbeatMsg) (now : Int) :
    List (String × GatewayInfo) × (String × String) :=
  let gw := getOrCreate store gid now
  let gw' :=
    { gw with
      last_heartbeat := now
      uptime_seconds := hb.uptime.getD gw.uptime_seconds
      rssi := hb.rssi.getD gw.rssi
      connected := hb.connected.getD true }
  (upsertA store gid gw', (gid, "heartbeat"))

/-- Incoming status dictionary. -/
structure StatusMsg where
  connected : Option Bool := none
  device_name : Option String := none
  device_address : Option String := none
deriving DecidableEq, Repr

/-- GatewayDataStore.update_status: set connected to the reported value or
false when absent, merge the name and address, emit a status event; the
heartbeat stamp is untouched. -/
def update_status (store : List (String × GatewayInfo)) (gid : String)
    (status : StatusMsg) (now : Int) :
    List (String × GatewayInfo) × (String × String) :=
  let gw := getOrCreate store gid now
  let gw' :=
    { gw with
      connected := status.connected.getD false
      device_name := getOrKeep status.device_name gw.device_name
      device_address := getOrKeep status.device_address gw.device_address }
  (upsertA store gid gw', (gid, "status"))

/-- Timeout event broadcast by the checker in app.py. -/
structure TimeoutEvent where
  gateway_id : String
  connected : Bool
  reason : String
  last_heartbeat : Int
deriving DecidableEq, Repr

/-- Per-gateway body of gateway_timeout_checker in app.py: a connected
gateway whose heartbeat is older than the threshold is flipped to
disconnected and a timeout event carrying its last heartbeat is
broadcast. -/
def check_gateway (now threshold : Int) (gid : String) (gw : GatewayInfo) :
    GatewayInfo × Option TimeoutEvent :=
  if gw.connected then
    if threshold < now - gw.last_heartbeat then
      ({ gw with connected := false },
        some { gateway_id := gid, connected := false, reason := "heartbeat_timeout",
               last_heartbeat := gw.last_heartbeat })
    else (gw, none)
  else (gw, none)

/-- One pass of the 10-second scan loop of gateway_timeout_checker over
every gateway of the store. -/
def timeout_checker_pass (store : List (String × GatewayInfo)) (now threshold : Int) :
    List (String × GatewayInfo) × List TimeoutEvent :=
  (store.map (fun kv => (kv.1, (check_gateway now threshold kv.1 kv.2).1)),
   store.filterMap (fun kv => (check_gateway now threshold kv.1 kv.2).2))

/-- Online flag computed by list_gateways in app.py: the fresh derivation
from the heartbeat age, independent of the stored connected flag. -/
def online_flag (now threshold : Int) (gw : GatewayInfo) : Bool :=
  decide (now - gw.last_heartbeat < threshold)

theorem updatePorts_foldl_total (now : Int) (pdata : List PortUpdate)
    (m : List (Nat × PortData)) (q : ℚ) (c : Nat) :
    (pdata.foldl (updatePortsStep now) (m, q, c)).2.1
      = q + (pdata.map (fun pd => pd.power.getD 0)).sum := by
  induction pdata generalizing m q c with
  | nil => simp
  | cons pd rest ih =>
    simp only [List.foldl_cons, List.map_cons, List.sum_cons, updatePortsStep, mkPortData, ih]
    ring

theorem updatePorts_foldl_active (now : Int) (pdata : List PortUpdate)
    (m : List (Nat × PortData)) (q : ℚ) (c : Nat) :
    (pdata.foldl (updatePortsStep now) (m, q, c)).2.2
      = c + pdata.countP (fun pd => decide (0 < pd.current.getD 0)) := by
  induction pdata generalizing m q c with
  | nil => simp
  | cons pd rest ih =>
    simp only [List.foldl_cons, List.countP_cons, updatePortsStep, mkPortData, ih]
    by_cases h : (0 : Int) < pd.current.getD 0 <;> simp [h] <;> omega

theorem lastUpdateFor_acc (l : List PortUpdate) (k : Nat) (a : Option PortUpdate) :
    l.foldl (fun acc pd => if pd.port_id.getD 0 = k then some pd else acc) a
      = match l.foldl (fun acc pd => if pd.port_id.getD 0 = k then some pd else acc) none with
        | some x => some x
        | none => a := by
  induction l generalizing a with
  | nil => rfl
  | cons pd rest ih =>
    simp only [List.foldl_cons]
    rw [ih, ih (if pd.port_id.getD 0 = k then some pd else none)]
    cases rest.foldl (fun acc pd => if pd.port_id.getD 0 = k then some pd else acc) none with
    | some x => rfl
    | none => by_cases h : pd.port_id.getD 0 = k <;> simp [h]

theorem updatePorts_foldl_lookup (now : Int) (pdata : List PortUpdate)
    (m : List (Nat × PortData)) (q : ℚ) (c : Nat) (k : Nat) :
    lookupA (pdata.foldl (updatePortsStep now) (m, q, c)).1 k
      = match lastUpdateFor pdata k with
        | some pd => some (mkPortData pd now)
        | none => lookupA m k := by
  induction pdata generalizing m q c with
  | nil => rfl
  | cons pd rest ih =>
    simp only [List.foldl_cons, updatePortsStep]
    rw [ih]
    have hkey : (mkPortData pd now).port_id = pd.port_id.getD 0 := rfl
    have hlast : lastUpdateFor (pd :: rest) k
        = match lastUpdateFor rest k with
          | some x => some x
          | none => if pd.port_id.getD 0 = k then some pd else none := by
      show rest.foldl _ (if pd.port_id.getD 0 = k then some pd else none) = _
      rw [lastUpdateFor_acc]
      rfl
    rw [hlast]
    cases lastUpdateFor rest k with
    | some x => rfl
    | none =>
      simp only
      rw [hkey, lookupA_upsertA]
      by_cases h : pd.port_id.getD 0 = k <;> simp [h]

/-- Sum of the stored power over a gateway's port records. -/
def portsPowerSum (m : List (Nat × PortData)) : ℚ :=
  (m.map (fun kv => kv.2.power_w)).sum

/-- Gateway fixture for the port-replacement counterexample: one gateway
holding port 1 at 5 W. -/
def c5store0 : List (String × GatewayInfo) :=
  [("g", { gateway_id := "g", last_heartbeat := 0,
           ports := [(1, { port_id := 1, current_ma := 1, power_w := 5 })] })]

/-- Incoming ports list of the counterexample: only port 2 at 3 W. -/
def c5incoming : PortUpdate :=
  { port_id := some 2, current := some 1, power := some 3 }

/-- C5 counterexample: updating gateway g, which holds port 1 at 5 W, with
a list containing only port 2 at 3 W keeps the stale port 1 record — the
port map is merged, not replaced — and sets total_power to 3, the sum over
the incoming list, which differs from the sum 8 over the gateway's
ports. -/
theorem c5_update_ports_counterexample :
    (lookupA (update_ports c5store0 "g" [c5incoming] 10).1 "g").map
        (fun gw => (lookupA gw.ports 1).isSome) = some true
    ∧ (lookupA (update_ports c5store0 "g" [c5incoming] 10).1 "g").map
        GatewayInfo.total_power = some 3
    ∧ (lookupA (update_ports c5store0 "g" [c5incoming] 10).1 "g").map
        (fun gw => portsPowerSum gw.ports) = some 8 := by
  refine ⟨?_, ?_, ?_⟩ <;>
    norm_num [c5store0, c5incoming, update_ports, getOrCreate, updatePortsStep, mkPortData,
      upsertA, lookupA, portsPowerSum, pyRound2, roundHalfEven]

/-- C5 (amended): update_ports creates the gateway record if absent, emits
a ports event, marks the gateway connected, upserts the records built from
the incoming list into the port map keyed by port id — with the last
record winning a key and port records absent from the list retained — and
sets total_power to the two-decimal rounding of the power sum over the
incoming list only, and active_ports to the count of incoming records with
positive current. -/
theorem c5_update_ports_amended (store : List (String × GatewayInfo)) (gid : String)
    (pdata : List PortUpdate) (now : Int) :
    (update_ports store gid pdata now).2 = (gid, "ports")
    ∧ ∃ gw', lookupA (update_ports store gid pdata now).1 gid = some gw'
        ∧ gw'.connected = true
        ∧ gw'.total_power = pyRound2 ((pdata.map (fun pd => pd.power.getD 0)).sum)
        ∧ gw'.active_ports = pdata.countP (fun pd => decide (0 < pd.current.getD 0))
        ∧ ∀ k, lookupA gw'.ports k =
            (match lastUpdateFor pdata k with
             | some pd => some (mkPortData pd now)
             | none => lookupA (getOrCreate store gid now).ports k) := by
  constructor

  · rfl
  · refine ⟨{ getOrCreate store gid now with
        ports := (pdata.foldl (updatePortsStep now)
          ((getOrCreate store gid now).ports, (0 : ℚ), (0 : Nat))).1
        total_power := pyRound2 (pdata.foldl (updatePortsStep now)
          ((getOrCreate store gid now).ports, (0 : ℚ), (0 : Nat))).2.1
        active_ports := (pdata.foldl (updatePortsStep now)
          ((getOrCreate store gid now).ports, (0 : ℚ), (0 : Nat))).2.2
        connected := true }, ?_, rfl, ?_, ?_, ?_⟩
    · show lookupA (upsertA store gid _) gid = _
      rw [lookupA_upsertA, if_pos rfl]
    · show pyRound2 (pdata.foldl (updatePortsStep now) _).2.1 = _
      rw [updatePorts_foldl_total]
      norm_num
    · show (pdata.foldl (updatePortsStep now) _).2.2 = _
      rw [updatePorts_foldl_active]
      omega
    · intro k
      show lookupA (pdata.foldl (updatePortsStep now) _).1 k = _
      rw [updatePorts_foldl_lookup]

/-- C5 witness: the update evaluated at the concrete fixture store. -/
theorem c5_update_ports_amended_witness :
    (update_ports c5store0 "g" [c5incoming] 10).2 = ("g", "ports") :=
  (c5_update_ports_amended c5store0 "g" [c5incoming] 10).1

theorem check_gateway_event_id (now threshold : Int) (k : String) (gw : GatewayInfo)
    (ev : TimeoutEvent) (h : (check_gateway now threshold k gw).2 = some ev) :
    ev.gateway_id = k := by
  unfold check_gateway at h
  by_cases h1 : gw.connected <;> simp [h1] at h
  by_cases h2 : threshold < now - gw.last_heartbeat <;> simp [h2] at h
  rw [← h]

theorem lookupA_mem {α β : Type} [DecidableEq α] (m : List (α × β)) (k : α) (v : β)
    (h : lookupA m k = some v) : (k, v) ∈ m := by
  induction m with
  | nil => simp [lookupA] at h
  | cons kv rest ih =>
    unfold lookupA at h
    by_cases h1 : kv.1 = k
    · rw [if_pos h1] at h
      have : kv = (k, v) := by
        obtain ⟨a, b⟩ := kv
        simp at h1 ⊢
        exact ⟨h1, by simpa using h⟩
      rw [← this]
      exact List.mem_cons_self kv rest
    · rw [if_neg h1] at h
      exact List.mem_cons_of_mem kv (ih h)

theorem lookupA_map_entries {α β γ : Type} [DecidableEq α] (f : α → β → γ)
    (m : List (α × β)) (k : α) :
    lookupA (m.map (fun kv => (kv.1, f kv.1 kv.2))) k = (lookupA m k).map (f k) := by
  induction m with
  | nil => rfl
  | cons kv rest ih =>
    simp only [List.map_cons]
    unfold lookupA
    by_cases h1 : kv.1 = k
    · simp [h1]
    · simp [h1, ih]

theorem timeout_pass_keys (store : List (String × GatewayInfo)) (now threshold : Int) :
    (timeout_checker_pass store now threshold).1.map Prod.fst = store.map Prod.fst := by
  unfold timeout_checker_pass
  rw [List.map_map]
  rfl

theorem timeout_pass_count_absent (store : List (String × GatewayInfo))
    (now threshold : Int) (gid : String) (h : ∀ kv ∈ store, kv.1 ≠ gid) :
    ((timeout_checker_pass store now threshold).2.countP
      (fun ev => decide (ev.gateway_id = gid))) = 0 := by
  unfold timeout_checker_pass
  induction store with
  | nil => rfl
  | cons kv rest ih =>
    simp only [List.filterMap_cons]
    have hkv : kv.1 ≠ gid := h kv (List.mem_cons_self kv rest)
    have hrest := ih (fun kv' hm => h kv' (List.mem_cons_of_mem kv hm))
    cases he : (check_gateway now threshold kv.1 kv.2).2 with
    | none => exact hrest
    | some ev =>
      rw [List.countP_cons]
      have : ¬ev.gateway_id = gid := by
        rw [check_gateway_event_id now threshold kv.1 kv.2 ev he]
        exact hkv
      simp [this, hrest]

theorem timeout_pass_count (store : List (String × GatewayInfo)) (now threshold : Int)
    (gid : String) (gw : GatewayInfo) (hgw : lookupA store gid = some gw)
    (hkeys : (store.map Prod.fst).Nodup) :
    ((timeout_checker_pass store now threshold).2.countP
      (fun ev => decide (ev.gateway_id = gid)))
      = if (check_gateway now threshold gid gw).2.isSome then 1 else 0 := by
  unfold timeout_checker_pass
  induction store with
  | nil => simp [lookupA] at hgw
  | cons kv rest ih =>
    simp only [List.map_cons, List.nodup_cons] at hkeys
    unfold lookupA at hgw
    simp only [List.filterMap_cons]
    by_cases h1 : kv.1 = gid
    · rw [if_pos h1] at hgw
      have hv : kv.2 = gw := by simpa using hgw
      have habsent : ∀ kv' ∈ rest, kv'.1 ≠ gid := by
        intro kv' hm he
        exact hkeys.1 (h1 ▸ he ▸ List.mem_map_of_mem Prod.fst hm)
      have hrest := timeout_pass_count_absent rest now threshold gid habsent
      unfold timeout_checker_pass at hrest
      cases he : (check_gateway now threshold gid gw).2 with
      | none =>
        rw [h1, hv, he]
        simp [hrest]
      | some ev =>
        rw [h1, hv, he]
        have : ev.gateway_id = gid := check_gateway_event_id now threshold gid gw ev he
        simp [List.countP_cons, this, hrest]
    · rw [if_neg h1] at hgw
      have hrest := ih hgw hkeys.2
      cases he : (check_gateway now threshold kv.1 kv.2).2 with
      | none => exact hrest
      | some ev =>
        rw [List.countP_cons]
        have : ¬ev.gateway_id = gid := by
          rw [check_gateway_event_id now threshold kv.1 kv.2 ev he]
          exact h1
        simp [this, hrest]

/-- C6: a scan pass at a time when a connected gateway's heartbeat is older
than the threshold flips that gateway to disconnected and emits exactly one
timeout event for it, carrying the last heartbeat time; the fresh online
derivation is already false at that time and stays false; and a second scan
with no intervening message emits no further event for that gateway. -/
theorem c6_gateway_timeout (store : List (String × GatewayInfo)) (gid : String)
    (gw : GatewayInfo) (now1 now2 threshold : Int)
    (hgw : lookupA store gid = some gw)
    (hconn : gw.connected = true)
    (hstale : threshold < now1 - gw.last_heartbeat)
    (hth : 0 ≤ threshold)
    (hkeys : (store.map Prod.fst).Nodup) :
    lookupA (timeout_checker_pass store now1 threshold).1 gid
        = some { gw with connected := false }
    ∧ ((timeout_checker_pass store now1 threshold).2.countP
        (fun ev => decide (ev.gateway_id = gid))) = 1
    ∧ (TimeoutEvent.mk gid false "heartbeat_timeout" gw.last_heartbeat)
        ∈ (timeout_checker_pass store now1 threshold).2
    ∧ online_flag now1 threshold gw = false
    ∧ online_flag now1 threshold { gw with connected := false } = false
    ∧ (check_gateway now2 threshold gid { gw with connected := false }).2 = none
    ∧ ((timeout_checker_pass (timeout_checker_pass store now1 threshold).1 now2
        threshold).2.countP (fun ev => decide (ev.gateway_id = gid))) = 0 := by
  have hcheck : check_gateway now1 threshold gid gw
      = ({ gw with connected := false },
         some { gateway_id := gid, connected := false, reason := "heartbeat_timeout",
                last_heartbeat := gw.last_heartbeat }) := by
    unfold check_gateway
    rw [hconn]
    simp [hstale]
  have hlook1 : lookupA (timeout_checker_pass store now1 threshold).1 gid
      = some { gw with connected := false } := by
    show lookupA (store.map (fun kv => (kv.1, (check_gateway now1 threshold kv.1 kv.2).1)))
        gid = _
    rw [lookupA_map_entries (fun k v => (check_gateway now1 threshold k v).1) store gid, hgw]
    simp [hcheck]
  refine ⟨hlook1, ?_, ?_, ?_, ?_, ?_, ?_⟩
  · rw [timeout_pass_count store now1 threshold gid gw hgw hkeys, hcheck]
    rfl
  · show _ ∈ store.filterMap (fun kv => (check_gateway now1 threshold kv.1 kv.2).2)
    rw [List.mem_filterMap]
    exact ⟨(gid, gw), lookupA_mem store gid gw hgw, by rw [hcheck]⟩
  · unfold online_flag
    simp only [decide_eq_false_iff_not, not_lt]
    omega
  · unfold online_flag
    simp only [decide_eq_false_iff_not, not_lt]
    omega
  · unfold check_gateway
    simp
  · have hkeys2 : ((timeout_checker_pass store now1 threshold).1.map Prod.fst).Nodup := by
      rw [timeout_pass_keys]
      exact hkeys
    rw [timeout_pass_count (timeout_checker_pass store now1 threshold).1 now2 threshold gid
      { gw with connected := false } hlook1 hkeys2]
    unfold check_gateway
    simp

/-- Gateway fixture for the timeout witness: connected, heartbeat at 0. -/
def c6gw : GatewayInfo := { gateway_id := "g", connected := true, last_heartbeat := 0 }

/-- C6 witness: the scan evaluated on a one-gateway store with heartbeat at
0, threshold 30, scans at 100 and 200. -/
theorem c6_gateway_timeout_witness :
    ((timeout_checker_pass [("g", c6gw)] 100 30).2.countP
      (fun ev => decide (ev.gateway_id = "g"))) = 1 :=
  (c6_gateway_timeout [("g", c6gw)] "g" c6gw 100 200 30
    (by decide) rfl (by decide) (by decide) (by decide)).2.1

/-- Gateway fixture for the online-recovery counterexample: flipped offline
by the timeout scan, heartbeat stuck at 0. -/
def c7gwOff : GatewayInfo := { gateway_id := "g", connected := false, last_heartbeat := 0 }

/-- Incoming ports record of the online-recovery counterexample. -/
def c7incoming : PortUpdate := { port_id := some 1, current := some 1, power := some 3 }

/-- C7 counterexample: after a timeout breach left gateway g offline with
its heartbeat stuck at 0, processing a ports message at time 100 with
threshold 30 sets the stored connected flag to true, yet the online flag
reported to clients is still false, because no message but a heartbeat
touches the heartbeat stamp. -/
theorem c7_online_counterexample :
    (lookupA (update_ports [("g", c7gwOff)] "g" [c7incoming] 100).1 "g").map
        (online_flag 100 30) = some false
    ∧ (lookupA (update_ports [("g", c7gwOff)] "g" [c7incoming] 100).1 "g").map
        GatewayInfo.connected = some true := by
  constructor <;>
    norm_num [update_ports, getOrCreate, lookupA, upsertA, updatePortsStep, mkPortData,
      c7gwOff, c7incoming, online_flag]

/-- C7 (amended): after a gateway went offline, only a heartbeat message
restores the reported online flag, because it alone stamps last_heartbeat
with the current instant; ports and device_info messages set the stored
connected flag to true, and a status message sets it to the reported value,
but none of the three touches last_heartbeat, so the online flag derived at
any instant is exactly what it was before the message. -/
theorem c7_online_recovery (store : List (String × GatewayInfo)) (gid : String)
    (gw : GatewayInfo) (hb : HeartbeatMsg) (pdata : List PortUpdate)
    (info : DeviceInfoMsg) (status : StatusMsg) (now th t : Int)
    (hgw : lookupA store gid = some gw) :
    (∀ gw1, lookupA (update_heartbeat store gid hb now).1 gid = some gw1 →
        gw1.last_heartbeat = now ∧ (0 < th → online_flag now th gw1 = true))
    ∧ (∀ gw2, lookupA (update_ports store gid pdata now).1 gid = some gw2 →
        gw2.last_heartbeat = gw.last_heartbeat ∧ gw2.connected = true
        ∧ online_flag t th gw2 = online_flag t th gw)
    ∧ (∀ gw3, lookupA (update_device_info store gid info now).1 gid = some gw3 →
        gw3.last_heartbeat = gw.last_heartbeat ∧ gw3.connected = true
        ∧ online_flag t th gw3 = online_flag t th gw)
    ∧ (∀ gw4, lookupA (update_status store gid status now).1 gid = some gw4 →
        gw4.last_heartbeat = gw.last_heartbeat
        ∧ gw4.connected = status.connected.getD false
        ∧ online_flag t th gw4 = online_flag t th gw) := by
  have hgoc : getOrCreate store gid now = gw := by
    unfold getOrCreate
    rw [hgw]
  refine ⟨?_, ?_, ?_, ?_⟩
  · intro gw1 h1
    rw [show lookupA (update_heartbeat store gid hb now).1 gid = some _ from
      by rw [update_heartbeat, lookupA_upsertA, if_pos rfl]] at h1
    obtain rfl := Option.some.inj h1
    refine ⟨rfl, fun hth => ?_⟩
    unfold online_flag
    simp only [decide_eq_true_eq]
    omega
  · intro gw2 h2
    rw [show lookupA (update_ports store gid pdata now).1 gid = some _ from
      by rw [update_ports, lookupA_upsertA, if_pos rfl]] at h2
    obtain rfl := Option.some.inj h2
    refine ⟨by rw [hgoc], rfl, ?_⟩
    unfold online_flag
    rw [show ({ getOrCreate store gid now with
      ports := (pdata.foldl (updatePortsStep now)
        ((getOrCreate store gid now).ports, (0 : ℚ), (0 : Nat))).1
      total_power := pyRound2 (pdata.foldl (updatePortsStep now)
        ((getOrCreate store gid now).ports, (0 : ℚ), (0 : Nat))).2.1
      active_ports := (pdata.foldl (updatePortsStep now)
        ((getOrCreate store gid now).ports, (0 : ℚ), (0 : Nat))).2.2
      connected := true } : GatewayInfo).last_heartbeat
      = gw.last_heartbeat from by rw [hgoc]]
  · intro gw3 h3
    rw [show lookupA (update_device_info store gid info now).1 gid = some _ from
      by rw [update_device_info, lookupA_upsertA, if_pos rfl]] at h3
    obtain rfl := Option.some.inj h3
    refine ⟨by rw [hgoc], rfl, ?_⟩
    unfold online_flag
    rw [show ({ getOrCreate store gid now with
      device_name := getOrKeep info.device_name (getOrCreate store gid now).device_name
      device_address := getOrKeep info.device_address (getOrCreate store gid now).device_address
      firmware_version :=
        getOrKeep info.firmware_version (getOrCreate store gid now).firmware_version
      model := getOrKeep info.model (getOrCreate store gid now).model
      serial := getOrKeep info.serial (getOrCreate store gid now).serial
      uptime_seconds := info.uptime.getD (getOrCreate store gid now).uptime_seconds
      connected := true } : GatewayInfo).last_heartbeat
      = gw.last_heartbeat from by rw [hgoc]]
  · intro gw4 h4
    rw [show lookupA (update_status store gid status now).1 gid = some _ from
      by rw [update_status, lookupA_upsertA, if_pos rfl]] at h4
    obtain rfl := Option.some.inj h4
    refine ⟨by rw [hgoc], rfl, ?_⟩
    unfold online_flag
    rw [show ({ getOrCreate store gid now with
      connected := status.connected.getD false
      device_name := getOrKeep status.device_name (getOrCreate store gid now).device_name
      device_address :=
        getOrKeep status.device_address (getOrCreate store gid now).device_address }
      : GatewayInfo).last_heartbeat = gw.last_heartbeat from by rw [hgoc]]

/-- C7 witness: recovery evaluated with a concrete store where gateway g is
offline with heartbeat 0, a heartbeat at time 100 and threshold 30. -/
theorem c7_online_recovery_witness :
    (lookupA (update_heartbeat [("g", c7gwOff)] "g" {} 100).1 "g").map
      (online_flag 100 30) = some true := by
  obtain ⟨gw1, he⟩ : ∃ gw1,
      lookupA (update_heartbeat [("g", c7gwOff)] "g" {} 100).1 "g" = some gw1 := ⟨_, rfl⟩
  have h := ((c7_online_recovery [("g", c7gwOff)] "g" c7gwOff {} [] {} {} 100 30 100
    (by decide)).1 gw1 he).2 (by decide)
  rw [he]
  simp [h]

/-! Command correlation, from MQTTClient.send_command and
GatewayDataStore.handle_command_response in mqtt_client.py. -/

/-- Command response message arriving on the cmd_response topic; the
cmd_id key may be absent and the rest of the dictionary is carried
opaquely. -/
structure CmdResponse where
  cmd_id : Option String := none
  body : String := ""
deriving DecidableEq, Repr

/-- State of one asyncio future held in the cmd_id map. -/
inductive FutureState
  | pending
  | cancelled
deriving DecidableEq, Repr

/-- GatewayDataStore.register_command: create a fresh pending future and
store it under the command id. -/
def register_command (m : List (String × FutureState)) (cid : String) :
    List (String × FutureState) :=
  upsertA m cid .pending

/-- GatewayDataStore.handle_command_response: when the response carries a
non-empty cmd_id present in the map, pop the entry and resolve its future
with the response unless the future is already done; the second component
is the response delivered to the waiting sender, if any. -/
def handle_command_response (m : List (String × FutureState)) (resp : CmdResponse) :
    List (String × FutureState) × Option CmdResponse :=
  match resp.cmd_id with
  | none => (m, none)
  | some cid =>
    if cid = "" then (m, none)
    else
      match lookupA m cid with
      | none => (m, none)
      | some fut =>
        (removeKey m cid, if fut = .pending then some resp else none)

/-- Timeout expiry of MQTTClient.send_command, modelling asyncio.wait_for
cancelling the awaited future when the timeout elapses: the future becomes
done without a result, and the map entry is left in place. -/
def expire_command (m : List (String × FutureState)) (cid : String) :
    List (String × FutureState) :=
  m.map (fun kv => if kv.1 = cid then (cid, .cancelled) else kv)

/-- C9 counterexample: registering command abc and letting its timeout
expire leaves the abc entry in the map, as a cancelled future — the entry
is not removed on expiry; it is only popped later if a response for it ever
arrives. -/
theorem c9_correlation_counterexample :
    lookupA (expire_command (register_command [] "abc") "abc") "abc"
      = some FutureState.cancelled
    ∧ lookupA (expire_command (register_command [] "abc") "abc") "abc" ≠ none := by
  constructor <;> decide

theorem lookupA_eq_none_of_absent {α β : Type} [DecidableEq α] (m : List (α × β)) (k : α)
    (h : ∀ kv ∈ m, kv.1 ≠ k) : lookupA m k = none := by
  induction m with
  | nil => rfl
  | cons kv rest ih =>
    unfold lookupA
    rw [if_neg (h kv (List.mem_cons_self kv rest))]
    exact ih fun kv' hm => h kv' (List.mem_cons_of_mem kv hm)

theorem lookupA_removeKey_self {α β : Type} [DecidableEq α] (m : List (α × β)) (k : α)
    (hkeys : (m.map Prod.fst).Nodup) : lookupA (removeKey m k) k = none := by
  induction m with
  | nil => rfl
  | cons kv rest ih =>
    simp only [List.map_cons, List.nodup_cons] at hkeys
    unfold removeKey
    by_cases h1 : kv.1 = k
    · rw [if_pos h1]
      refine lookupA_eq_none_of_absent rest k fun kv' hm he => ?_
      exact hkeys.1 (h1 ▸ he ▸ List.mem_map_of_mem Prod.fst hm)
    · rw [if_neg h1]
      unfold lookupA
      rw [if_neg h1]
      exact ih hkeys.2

/-- C9 (amended): a registered command resolves exactly when a cmd_response
bearing its cmd_id arrives while its future is still pending: registration
stores a pending future under the id; a matching response then pops the
entry and delivers the response to the sender; on timeout expiry the caller
sees nothing and the entry stays in the map as a cancelled future; a late
response for that id pops the entry but delivers nothing; and handling a
response for one id never touches the entry of any other id. -/
theorem c9_correlation (m : List (String × FutureState)) (cid cid' : String)
    (resp : CmdResponse) :
    lookupA (register_command m cid) cid = some FutureState.pending
    ∧ (lookupA m cid = some FutureState.pending → resp.cmd_id = some cid → cid ≠ "" →
        handle_command_response m resp = (removeKey m cid, some resp))
    ∧ (lookupA m cid = some FutureState.pending →
        lookupA (expire_command m cid) cid = some FutureState.cancelled)
    ∧ ((m.map Prod.fst).Nodup → lookupA m cid = some FutureState.cancelled →
        resp.cmd_id = some cid → cid ≠ "" →
        (handle_command_response m resp).2 = none
        ∧ lookupA (handle_command_response m resp).1 cid = none)
    ∧ (cid' ≠ cid → resp.cmd_id = some cid →
        lookupA (handle_command_response m resp).1 cid' = lookupA m cid') := by
  refine ⟨?_, ?_, ?_, ?_, ?_⟩
  · unfold register_command
    rw [lookupA_upsertA, if_pos rfl]
  · intro hpend hid hne
    unfold handle_command_response
    rw [hid]
    simp only [if_neg hne, hpend]
    rfl
  · intro hpend
    unfold expire_command
    induction m with
    | nil => simp [lookupA] at hpend
    | cons kv rest ih =>
      unfold lookupA at hpend
      by_cases h1 : kv.1 = cid
      · simp [h1, lookupA]
      · rw [if_neg h1] at hpend
        simp only [List.map_cons, if_neg h1, lookupA, if_neg h1]
        exact ih hpend
  · intro hkeys hcanc hid hne
    unfold handle_command_response
    rw [hid]
    simp only [if_neg hne, hcanc]
    exact ⟨by simp, lookupA_removeKey_self m cid hkeys⟩
  · intro hne hid
    unfold handle_command_response
    rw [hid]
    by_cases h0 : cid = ""
    · simp only [if_pos h0]
    · simp only [if_neg h0]
      cases hl : lookupA m cid with
      | none => rfl
      | some fut => exact lookupA_removeKey_ne m cid cid' hne

/-- C9 witness: correlation evaluated at a concrete map holding a pending
future for abc and a cancelled one for xyz, with a response for abc. -/
theorem c9_correlation_witness :
    handle_command_response [("abc", FutureState.pending), ("xyz", FutureState.cancelled)]
        { cmd_id := some "abc" }
      = (removeKey [("abc", FutureState.pending), ("xyz", FutureState.cancelled)] "abc",
         some { cmd_id := some "abc" }) :=
  (c9_correlation [("abc", FutureState.pending), ("xyz", FutureState.cancelled)]
    "abc" "xyz" { cmd_id := some "abc" }).2.1 (by decide) rfl (by decide)

end CP02
